import Mathlib

/-!
Verification development for the deckard session-orchestration engine.

The Go source is embedded shallowly: external effects (tmux server, git
subprocesses, forge CLIs) become explicit state values or oracle
parameters, and each Go function that a claim touches becomes a Lean
definition with the same branching structure. Struct zero values of Go
(empty string, false, nil pointer) are written out explicitly.
-/

namespace Deckard

-- — data model (internal/model/session.go) ————————————————————————————————

/-- Mirror of model.PR: pull/merge request metadata fetched via gh or glab. -/
structure PR where
  number : Nat
  title : String
  webURL : String
  state : String
  pipelineStatus : String
  hasUnresolved : Bool
  draft : Bool
  forge : String
deriving Repr, DecidableEq

/-- Mirror of model.Session: a git worktree and its associated work context. -/
structure Session where
  path : String
  branch : String
  slug : String
  needsInput : Bool
  tmuxRunning : Bool
  pr : Option PR
deriving Repr, DecidableEq

-- — git package (worktree listing and slug normalisation) ——————————————————

namespace git

/-- Mirror of strings.ToLower applied rune-wise (branch names are plain text). -/
def goToLower (s : String) : String := ⟨s.data.map Char.toLower⟩

/-- Mirror of strings.ReplaceAll(s, "/", "-"); the pattern is a single
character, so the replacement is a character-wise map. -/
def replaceSlashDash (s : String) : String :=
  ⟨s.data.map (fun c => if c = '/' then '-' else c)⟩

/-- Mirror of git.BranchToSlug: normalises a branch name into a
filesystem/tmux-safe slug; the empty branch maps to "unknown". -/
def BranchToSlug (branch : String) : String :=
  if branch = "" then "unknown"
  else replaceSlashDash (goToLower branch)

/-- Mirror of strings.HasPrefix at the character level. -/
def leadMatch : List Char → List Char → Bool
  | [], _ => true
  | _ :: _, [] => false
  | p :: ps, c :: cs => p = c && leadMatch ps cs

/-- Mirror of strings.TrimPrefix(s, pre): drop pre when it leads s, else s. -/
def trimLead (pre s : String) : String :=
  if leadMatch pre.data s.data then ⟨s.data.drop pre.data.length⟩ else s

/-- Mirror of strings.Split(s, "\n"): the separator is a single character,
so the split is a character-level scan. -/
def splitNl : List Char → List String
  | [] => [""]
  | c :: rest =>
    let r := splitNl rest
    if c = '\n' then "" :: r
    else
      match r with
      | [] => [⟨[c]⟩]
      | h :: t => ⟨c :: h.data⟩ :: t

/-- Accumulator of parseBlock: the path, branch and detached flag gathered
while scanning the lines of one worktree block. -/
structure BlockAcc where
  path : String
  branch : String
  detached : Bool
deriving Repr, DecidableEq

/-- Mirror of the per-line switch inside git.parseBlock. -/
def parseLine (acc : BlockAcc) (line : String) : BlockAcc :=
  if leadMatch "worktree ".data line.data then
    { acc with path := trimLead "worktree " line }
  else if leadMatch "branch ".data line.data then
    { acc with branch := trimLead "branch refs/heads/" line }
  else if line = "detached" then
    { acc with detached := true }
  else acc

/-- Mirror of git.parseBlock: scan the block lines, reject a block without a
worktree path, substitute "detached" for the branch of a detached head, and
build the Session with Go zero values for the enrichment fields. -/
def parseBlock (block : String) : Option Session :=
  let acc := (splitNl block.data).foldl parseLine ⟨"", "", false⟩
  if acc.path = "" then none
  else
    let branch := if acc.detached then "detached" else acc.branch
    some { path := acc.path, branch := branch, slug := BranchToSlug branch,
           needsInput := false, tmuxRunning := false, pr := none }

theorem branchToSlug_ne_empty (branch : String) : BranchToSlug branch ≠ "" := by
  unfold BranchToSlug
  by_cases h : branch = ""
  · simp [h]
  · simp only [h, if_false]
    intro heq
    apply h
    have hdata : (replaceSlashDash (goToLower branch)).data = [] := by
      rw [heq]
    simp [replaceSlashDash, goToLower] at hdata
    exact String.ext hdata

end git

-- — tmux package (liveness probe and session management) ———————————————————

namespace tmux

/-- State of the external tmux server reached through the deckard socket:
the set of registered session names, plus an environment flag telling
whether a new-session invocation (including the config write) succeeds. -/
structure TmuxWorld where
  registered : List String
  createOk : Bool
deriving Repr, DecidableEq

/-- Mirror of tmux.SessionExists: a named session exists on the socket. -/
def SessionExists (w : TmuxWorld) (slug : String) : Bool :=
  w.registered.contains slug

/-- Mirror of tmux.EnsureSession: return immediately when the session
already exists; otherwise create it, which registers the slug on success
and surfaces an error on failure. -/
def EnsureSession (w : TmuxWorld) (slug path : String) :
    TmuxWorld × Except String Unit :=
  if SessionExists w slug then (w, .ok ())
  else if w.createOk then
    ({ w with registered := slug :: w.registered }, .ok ())
  else (w, .error "new-session")

end tmux

-- — forge package (GitLab and GitHub backends) ——————————————————————————————

namespace forge

/-- Outcome of one forge CLI list invocation as seen by FetchPR: the
subprocess can fail, its stdout can fail to parse as JSON, or it yields a
list of decoded items. -/
inductive CliResult (α : Type) where
  | execError : CliResult α
  | parseError : CliResult α
  | ok : List α → CliResult α
deriving Repr, DecidableEq

/-- Mirror of forge.glabMR: the fields decoded from glab mr list JSON.
Pointer-typed fields of the Go struct become Option; the nested Pipeline
pointer holds only a Status string, so it is an Option String here. -/
structure GlabMR where
  iid : Nat
  title : String
  state : String
  webURL : String
  draft : Bool
  pipeline : Option String
  blockingDiscussionsResolved : Option Bool
deriving Repr, DecidableEq

/-- Mirror of forge.normaliseState: map GitLab state strings to the unified
model ("opened" becomes "open"; "merged" and "closed" pass through). -/
def normaliseState (s : String) : String :=
  if s = "opened" then "open" else s

/-- Mirror of the candidate selection inside gitLab.FetchPR: the loop takes
the first MR whose state is "opened"; when none is found and the list is
non-empty, the first element of the returned order is taken. -/
def selectGlab (mrs : List GlabMR) : Option GlabMR :=
  match mrs.find? (fun mr => mr.state == "opened") with
  | some f => some f
  | none => mrs.head?

/-- Mirror of the model.PR construction at the end of gitLab.FetchPR, with
the Go zero values kept when the pipeline or discussion pointers are nil. -/
def glabToPR (f : GlabMR) : PR :=
  { number := f.iid
    title := f.title
    webURL := f.webURL
    state := normaliseState f.state
    draft := f.draft
    forge := "gitlab"
    pipelineStatus :=
      match f.pipeline with
      | some st => st
      | none => ""
    hasUnresolved :=
      match f.blockingDiscussionsResolved with
      | some b => !b
      | none => false }

/-- Mirror of gitLab.FetchPR: a failed glab invocation or undecodable JSON
yields (nil, nil); otherwise the selected MR is converted to a model.PR. -/
def gitLabFetchPR (branch : String) (cli : CliResult GlabMR) :
    Except String (Option PR) :=
  match cli with
  | .execError => .ok none
  | .parseError => .ok none
  | .ok mrs =>
    match selectGlab mrs with
    | none => .ok none
    | some f => .ok (some (glabToPR f))

/-- Mirror of forge.ghPR: the fields decoded from gh pr list JSON. -/
structure GhPR where
  number : Nat
  title : String
  state : String
  url : String
  isDraft : Bool
  statusCheckRollup : String
  reviewDecision : String
deriving Repr, DecidableEq

/-- Mirror of forge.ghState: map GitHub PR state strings to the unified
model. -/
def ghState (s : String) : String :=
  if s = "OPEN" then "open"
  else if s = "MERGED" then "merged"
  else if s = "CLOSED" then "closed"
  else s

/-- Mirror of forge.ghCIStatus: map the statusCheckRollup vocabulary to the
pipeline status strings. -/
def ghCIStatus (s : String) : String :=
  if s = "SUCCESS" then "success"
  else if s = "FAILURE" ∨ s = "ERROR" then "failed"
  else if s = "PENDING" ∨ s = "EXPECTED" ∨ s = "STALE" then "pending"
  else if s = "" then ""
  else "pending"

/-- Mirror of the candidate selection inside gitHub.FetchPR: first PR in
state "OPEN", else the first of the returned order. -/
def selectGh (prs : List GhPR) : Option GhPR :=
  match prs.find? (fun pr => pr.state == "OPEN") with
  | some f => some f
  | none => prs.head?

/-- Mirror of the model.PR construction at the end of gitHub.FetchPR. -/
def ghToPR (f : GhPR) : PR :=
  { number := f.number
    title := f.title
    webURL := f.url
    state := ghState f.state
    draft := f.isDraft
    pipelineStatus := ghCIStatus f.statusCheckRollup
    hasUnresolved :=
      f.reviewDecision == "CHANGES_REQUESTED" ||
        f.reviewDecision == "REVIEW_REQUIRED"
    forge := "github" }

/-- Mirror of gitHub.FetchPR: a failed gh invocation or undecodable JSON
yields (nil, nil); otherwise the selected PR is converted to a model.PR. -/
def gitHubFetchPR (branch : String) (cli : CliResult GhPR) :
    Except String (Option PR) :=
  match cli with
  | .execError => .ok none
  | .parseError => .ok none
  | .ok prs =>
    match selectGh prs with
    | none => .ok none
    | some f => .ok (some (ghToPR f))

end forge

-- — tui package: enrichment pipeline (fetchSessionsCmd) ————————————————————

namespace tui

/-- Trace of one iteration of the fan-out loop inside fetchSessionsCmd: the
session as published at the join, whether the idle probe tmux.NeedsInput
was invoked, and whether the forge backend was invoked. -/
structure EnrichTrace where
  published : Session
  idleProbed : Bool
  forgeInvoked : Bool
deriving Repr, DecidableEq

/-- Mirror of the goroutine body in fetchSessionsCmd: TmuxRunning is set
from tmux.SessionExists (parameter ex); only when it is true is the idle
probe consulted (parameter idle) and written to NeedsInput; when a forge
backend is present (fetched = some r), its FetchPR result r — with the
error discarded, as in the source — replaces the attached PR, and an
attached review overwrites NeedsInput with its failed-pipeline or
unresolved-threads signal. -/
def enrichSession (s : Session) (ex idle : Bool) (fetched : Option (Option PR)) :
    EnrichTrace :=
  let s1 : Session := { s with tmuxRunning := ex }
  let step2 : Session × Bool :=
    if s1.tmuxRunning then ({ s1 with needsInput := idle }, true) else (s1, false)
  match fetched with
  | none => { published := step2.1, idleProbed := step2.2, forgeInvoked := false }
  | some pr =>
    let s3 : Session := { step2.1 with pr := pr }
    let s4 : Session :=
      match pr with
      | some p =>
        { s3 with needsInput := p.pipelineStatus == "failed" || p.hasUnresolved }
      | none => s3
    { published := s4, idleProbed := step2.2, forgeInvoked := true }

/-- Mirror of the whole enrichment cycle of fetchSessionsCmd: every session
of the listed fleet goes through the loop body, with the external probes
modelled as oracles keyed the way the source keys them (tmux by slug, the
forge fetch by branch); the returned list is the atomically published
result. -/
def fetchSessionsCmd (sessions : List Session) (probeEx probeIdle : String → Bool)
    (fetchPR : Option (String → Option PR)) : List EnrichTrace :=
  sessions.map fun s =>
    enrichSession s (probeEx s.slug) (probeIdle s.slug)
      (fetchPR.map fun f => f s.branch)

-- — tui package: orchestration state machine ————————————————————————————————

/-- Mirror of appState. -/
inductive AppState where
  | normal
  | newSession
  | commitType
  | commit
  | deleteConfirm
  | createPR
  | managePR
deriving Repr, DecidableEq

/-- Mirror of statusLevel. -/
inductive StatusLevel where
  | info
  | warn
  | error
deriving Repr, DecidableEq

/-- Mirror of createPRField. -/
inductive CreatePRField where
  | title
  | base
  | draft
deriving Repr, DecidableEq

/-- Asynchronous work and side effects dispatched by Update, reified as
data: each constructor stands for one tea.Cmd the source can return. -/
inductive Cmd where
  | fetchSessions
  | tick
  | clearStatus
  | blink
  | quit
  | ensureAndAttach (slug path : String)
  | execAttach (slug : String)
  | createWorktree (root branch : String)
  | commitChanges (path message : String)
  | push (path branch : String)
  | createPR (path branch title base : String) (draft : Bool)
  | updatePR (number : Nat) (draft : Bool)
  | openURL (url : String)
  | deleteWorktree (root path branch : String)
deriving Repr, DecidableEq

/-- Mirror of the orchestration-relevant fields of tui.Model: the active
state, the transient input buffers, the status line, the error slots, the
session list with its selection index, and the environment facts the
handlers read (forge presence, repo root, default base branch). Rendering
fields (width, spinner, styles) are omitted; the two textinput components
are reduced to their string values. -/
structure AppModel where
  state : AppState
  sessions : List Session
  selected : Nat
  loading : Bool
  err : Option String
  inputErr : String
  statusText : String
  statusLevel : StatusLevel
  nameInput : String
  commitType : String
  createPRTitle : String
  createPRBase : String
  createPRDraft : Bool
  createPRField : CreatePRField
  forgePresent : Bool
  repoRoot : String
  defaultBase : String
deriving Repr, DecidableEq

/-- Messages consumed by Update: completion messages of dispatched tasks,
the status auto-clear timer, and key presses (other bubbletea plumbing
messages do not touch the orchestration fields). -/
inductive Msg where
  | key (k : String)
  | clearStatus
  | sessionsLoaded (sessions : List Session) (err : Option String)
  | worktreeCreated (slug path : String) (err : Option String)
  | sessionEnsured (slug : String) (err : Option String)
  | claudeExited
  | commitResult (err : Option String)
  | worktreeRemoved (err : Option String)
  | pushResult (err : Option String)
  | prCreated (err : Option String)
  | prUpdated (err : Option String)
deriving Repr, DecidableEq

/-- Mirror of Model.selectedSession: none on an empty fleet or an
out-of-range index. -/
def selectedSession (m : AppModel) : Option Session :=
  if m.sessions.isEmpty then none else m.sessions.get? m.selected

/-- Mirror of Model.setStatus. -/
def setStatus (m : AppModel) (level : StatusLevel) (text : String) : AppModel :=
  { m with statusText := text, statusLevel := level }

/-- Mirror of the commitTypes table: key, conventional-commit type, label. -/
def commitTypes : List (String × String × String) :=
  [("f", "feat", "new feature"),
   ("x", "fix", "bug fix"),
   ("r", "refactor", "code restructure"),
   ("d", "docs", "documentation"),
   ("t", "test", "tests"),
   ("c", "chore", "maintenance"),
   ("i", "ci", "CI/CD"),
   ("p", "perf", "performance")]

/-- Mirror of slugToTitle: split the branch once on "/", join the head with
": ", then replace hyphens with spaces. -/
def slugToTitle (branch : String) : String :=
  let joined :=
    match branch.splitOn "/" with
    | [] => branch
    | [p] => p
    | p :: rest => p ++ ": " ++ String.intercalate "/" rest
  ⟨joined.data.map (fun c => if c = '-' then ' ' else c)⟩

/-- Mirror of Model.enterCreatePR: open the create modal focused on the
title, draft off, title pre-filled from the branch, base reset to the repo
default branch. -/
def enterCreatePR (m : AppModel) (s : Session) : AppModel × List Cmd :=
  ({ m with
      state := .createPR
      inputErr := ""
      createPRDraft := false
      createPRField := .title
      createPRTitle := slugToTitle s.branch
      createPRBase := m.defaultBase },
    [.blink])

/-- Mirror of Model.updateNormal for key messages; keys not handled by the
switch fall through to the list component, which never touches the
orchestration fields. -/
def updateNormal (m : AppModel) (k : String) : AppModel × List Cmd :=
  if k = "ctrl+c" ∨ k = "q" then (m, [.quit])
  else if k = "r" then ({ m with loading := true }, [.fetchSessions])
  else if k = "n" then
    ({ m with state := .newSession, inputErr := "", nameInput := "" }, [.blink])
  else if k = "c" then
    match selectedSession m with
    | some _ => ({ m with state := .commitType, commitType := "", inputErr := "" }, [])
    | none => (m, [])
  else if k = "p" then
    match selectedSession m with
    | some s => (m, [.push s.path s.branch])
    | none => (m, [])
  else if k = "o" then
    match selectedSession m with
    | some s =>
      match s.pr with
      | some pr => if pr.webURL ≠ "" then (m, [.openURL pr.webURL]) else (m, [])
      | none => (m, [])
    | none => (m, [])
  else if k = "m" then
    match selectedSession m with
    | none => (m, [])
    | some s =>
      if !m.forgePresent then (m, [])
      else
        match s.pr with
        | none => enterCreatePR m s
        | some _ => ({ m with state := .managePR, inputErr := "" }, [])
  else if k = "d" then
    match selectedSession m with
    | some s =>
      if s.path ≠ m.repoRoot then
        ({ m with state := .deleteConfirm, inputErr := "" }, [])
      else (m, [])
    | none => (m, [])
  else if k = "enter" then
    match selectedSession m with
    | some s => (m, [.ensureAndAttach s.slug s.path])
    | none => (m, [])
  else (m, [])

/-- Mirror of Model.updateNewSession for key messages; other keys feed the
branch-name textinput and leave the orchestration fields unchanged. -/
def updateNewSession (m : AppModel) (k : String) : AppModel × List Cmd :=
  if k = "esc" then ({ m with state := .normal, inputErr := "" }, [])
  else if k = "enter" then
    let branch := m.nameInput.trim
    if branch = "" then ({ m with inputErr := "branch name cannot be empty" }, [])
    else if m.repoRoot = "" then
      ({ m with inputErr := "could not determine git repo root" }, [])
    else ({ m with inputErr := "" }, [.createWorktree m.repoRoot branch])
  else (m, [])

/-- Mirror of Model.updateCommitType: escape cancels; a listed type key
records the type and opens the description modal. -/
def updateCommitType (m : AppModel) (k : String) : AppModel × List Cmd :=
  if k = "esc" then ({ m with state := .normal, inputErr := "" }, [])
  else
    match commitTypes.find? (fun t => t.1 == k) with
    | some t =>
      ({ m with commitType := t.2.1, state := .commit, inputErr := "", nameInput := "" },
        [.blink])
    | none => (m, [])

/-- Mirror of Model.updateCommit: escape returns to the type menu; enter
validates the description and dispatches the commit task. -/
def updateCommit (m : AppModel) (k : String) : AppModel × List Cmd :=
  if k = "esc" then ({ m with state := .commitType, inputErr := "" }, [])
  else if k = "enter" then
    let desc := m.nameInput.trim
    if desc = "" then ({ m with inputErr := "description cannot be empty" }, [])
    else
      match selectedSession m with
      | none => ({ m with inputErr := "no session selected" }, [])
      | some s =>
        ({ m with inputErr := "" },
          [.commitChanges s.path (m.commitType ++ ": " ++ desc)])
  else (m, [])

/-- Mirror of Model.updateDeleteConfirm: cancel keys return to Normal;
confirm keys dispatch the delete task without leaving the confirm state. -/
def updateDeleteConfirm (m : AppModel) (k : String) : AppModel × List Cmd :=
  if k = "esc" ∨ k = "n" ∨ k = "N" then ({ m with state := .normal, inputErr := "" }, [])
  else if k = "enter" ∨ k = "y" ∨ k = "Y" then
    match selectedSession m with
    | none => ({ m with state := .normal }, [])
    | some s => (m, [.deleteWorktree m.repoRoot s.path s.branch])
  else (m, [])

/-- Mirror of Model.updateCreatePR for its control keys (escape, tab, the
draft toggle on space, enter with its validations); other keys feed the
focused textinput and leave the orchestration fields unchanged. -/
def updateCreatePR (m : AppModel) (k : String) : AppModel × List Cmd :=
  if k = "esc" then ({ m with state := .normal, inputErr := "" }, [])
  else if k = "tab" then
    match m.createPRField with
    | .title => ({ m with createPRField := .base }, [.blink])
    | .base => ({ m with createPRField := .draft }, [.blink])
    | .draft => ({ m with createPRField := .title }, [.blink])
  else if k = " " ∧ m.createPRField = .draft then
    ({ m with createPRDraft := !m.createPRDraft }, [])
  else if k = "enter" then
    let title := m.createPRTitle.trim
    let base := m.createPRBase.trim
    if title = "" then ({ m with inputErr := "title cannot be empty" }, [])
    else if base = "" then ({ m with inputErr := "base branch cannot be empty" }, [])
    else
      match selectedSession m with
      | none => ({ m with inputErr := "no session selected" }, [])
      | some s =>
        ({ m with inputErr := "" },
          [.createPR s.path s.branch title base m.createPRDraft])
  else (m, [])

/-- Mirror of Model.updateManagePR: publish and draft dispatch the update
task with the opposite draft flag; open fires the URL side effect and
returns to Normal; escape cancels. -/
def updateManagePR (m : AppModel) (k : String) : AppModel × List Cmd :=
  if k = "esc" then ({ m with state := .normal }, [])
  else if k = "p" then
    match selectedSession m with
    | some s =>
      match s.pr with
      | some pr => (m, [.updatePR pr.number false])
      | none => ({ m with state := .normal }, [])
    | none => ({ m with state := .normal }, [])
  else if k = "d" then
    match selectedSession m with
    | some s =>
      match s.pr with
      | some pr => (m, [.updatePR pr.number true])
      | none => ({ m with state := .normal }, [])
    | none => ({ m with state := .normal }, [])
  else if k = "o" then
    match selectedSession m with
    | some s =>
      match s.pr with
      | some pr =>
        if pr.webURL ≠ "" then ({ m with state := .normal }, [.openURL pr.webURL])
        else ({ m with state := .normal }, [])
      | none => ({ m with state := .normal }, [])
    | none => ({ m with state := .normal }, [])
  else (m, [])

/-- Mirror of the per-state dispatch at the bottom of Model.Update. -/
def updateKey (m : AppModel) (k : String) : AppModel × List Cmd :=
  match m.state with
  | .newSession => updateNewSession m k
  | .commitType => updateCommitType m k
  | .commit => updateCommit m k
  | .deleteConfirm => updateDeleteConfirm m k
  | .createPR => updateCreatePR m k
  | .managePR => updateManagePR m k
  | .normal => updateNormal m k

/-- Mirror of Model.Update: the typed completion messages are handled first
exactly as in the source switch; key messages fall through to the active
state handler. -/
def update (m : AppModel) (msg : Msg) : AppModel × List Cmd :=
  match msg with
  | .clearStatus => ({ m with statusText := "" }, [])
  | .sessionsLoaded ss err =>
    match err with
    | some e => ({ m with loading := false, err := some e }, [])
    | none => ({ m with loading := false, err := none, sessions := ss }, [])
  | .worktreeCreated slug path err =>
    match err with
    | some e => ({ m with inputErr := e }, [])
    | none =>
      ({ m with state := .normal, inputErr := "", nameInput := "" },
        [.ensureAndAttach slug path])
  | .sessionEnsured slug err =>
    match err with
    | some e => ({ m with err := some e }, [])
    | none => (m, [.execAttach slug])
  | .claudeExited => ({ m with loading := true }, [.fetchSessions])
  | .commitResult err =>
    match err with
    | some e => ({ m with inputErr := e }, [])
    | none =>
      (setStatus
        { m with state := .normal, inputErr := "", nameInput := "", loading := true }
        .info "◆ committed",
        [.fetchSessions, .clearStatus])
  | .worktreeRemoved err =>
    match err with
    | some e => ({ m with inputErr := e, state := .normal }, [])
    | none =>
      ({ m with state := .normal, inputErr := "", loading := true }, [.fetchSessions])
  | .pushResult err =>
    match err with
    | some e =>
      ({ setStatus m .error ("✕ push failed: " ++ e) with loading := true },
        [.fetchSessions, .clearStatus])
    | none =>
      ({ setStatus m .info "◆ pushed" with loading := true },
        [.fetchSessions, .clearStatus])
  | .prCreated err =>
    match err with
    | some e => ({ m with inputErr := e }, [])
    | none =>
      ({ setStatus { m with state := .normal, inputErr := "" } .info "◆ PR created" with
          loading := true },
        [.fetchSessions, .clearStatus])
  | .prUpdated err =>
    match err with
    | some e =>
      ({ setStatus m .error ("✕ " ++ e) with state := .normal }, [.clearStatus])
    | none =>
      ({ setStatus { m with state := .normal } .info "◆ PR updated" with
          loading := true },
        [.fetchSessions, .clearStatus])
  | .key k => updateKey m k

end tui

-- — concrete sample values used by the witnesses ————————————————————————————

/-- Sample review with a green pipeline and resolved threads. -/
def samplePR : PR :=
  { number := 7, title := "Fix login bug", webURL := "https://example.com/pr/7",
    state := "open", pipelineStatus := "success", hasUnresolved := false,
    draft := false, forge := "github" }

/-- Sample review whose pipeline failed. -/
def failedPR : PR :=
  { samplePR with pipelineStatus := "failed" }

/-- Sample session as produced by the worktree source, before enrichment. -/
def sampleSession : Session :=
  { path := "/repo/.claude/worktrees/fix-login-bug", branch := "fix/login-bug",
    slug := "fix-login-bug", needsInput := false, tmuxRunning := false,
    pr := none }

/-- Sample session with an attached review. -/
def prSession : Session :=
  { sampleSession with pr := some samplePR }

/-- Sample orchestration model in the Normal state with one session. -/
def sampleModel : tui.AppModel :=
  { state := .normal, sessions := [prSession], selected := 0, loading := false,
    err := none, inputErr := "", statusText := "", statusLevel := .info,
    nameInput := "", commitType := "", createPRTitle := "", createPRBase := "main",
    createPRDraft := false, createPRField := .title, forgePresent := true,
    repoRoot := "/repo", defaultBase := "main" }

/-- Sample orchestration model sitting in the ManageReview state. -/
def managePRModel : tui.AppModel :=
  { sampleModel with state := .managePR }

/-- Sample merged GitLab MR candidate. -/
def sampleMergedMR : forge.GlabMR :=
  { iid := 1, title := "merged one", state := "merged",
    webURL := "https://gitlab.example/mr/1", draft := false,
    pipeline := some "success", blockingDiscussionsResolved := some true }

/-- Sample open GitLab MR candidate. -/
def sampleOpenMR : forge.GlabMR :=
  { iid := 2, title := "open one", state := "opened",
    webURL := "https://gitlab.example/mr/2", draft := false,
    pipeline := some "success", blockingDiscussionsResolved := some true }

/-- Sample open GitHub PR candidate. -/
def sampleGhPR : forge.GhPR :=
  { number := 3, title := "gh one", state := "OPEN",
    url := "https://github.example/pr/3", isDraft := false,
    statusCheckRollup := "SUCCESS", reviewDecision := "" }

-- — claims ——————————————————————————————————————————————————————————————————

/-- C1 (counterexample): a live session whose idle detection fired but
whose attached review has a non-failed pipeline and resolved threads is
published with needsInput = false, although the claimed disjunction (idle
OR failed pipeline OR unresolved threads) is true at this input — the
review overwrite discards the idle signal. -/
theorem c1_review_overwrites_idle_counterexample :
    (tui.enrichSession sampleSession true true
        (some (some samplePR))).published.needsInput = false ∧
      (true || (samplePR.pipelineStatus == "failed") || samplePR.hasUnresolved)
        = true := by
  decide

/-- C1 (amended): for a session entering the cycle with the worktree-source
zero attention flag, the published needsInput equals the review signal
(failed pipeline or unresolved threads) whenever a review is attached, and
equals the idle signal of a live session otherwise — the review signal,
when a review is attached, replaces rather than joins the idle signal. -/
theorem c1_needsInput_characterisation (s : Session) (ex idle : Bool)
    (fetched : Option (Option PR)) (h : s.needsInput = false) :
    (tui.enrichSession s ex idle fetched).published.needsInput =
      match fetched with
      | some (some p) => p.pipelineStatus == "failed" || p.hasUnresolved
      | some none => ex && idle
      | none => ex && idle := by
  cases fetched with
  | none => cases ex <;> simp [tui.enrichSession, h]
  | some pr =>
    cases pr with
    | none => cases ex <;> simp [tui.enrichSession, h]
    | some p => cases ex <;> simp [tui.enrichSession]

/-- C1 witness: the amended characterisation evaluated on a live idle
session with no forge backend. -/
theorem c1_needsInput_characterisation_witness :
    (tui.enrichSession sampleSession true true none).published.needsInput =
      (true && true) :=
  c1_needsInput_characterisation sampleSession true true none rfl

/-- C2 (counterexample): an update-review failure arriving while the
machine is in ManageReview does not leave it there — the handler forces
the state back to Normal. -/
theorem c2_failure_leaves_state_counterexample :
    managePRModel.state = tui.AppState.managePR ∧
    (tui.update managePRModel (.prUpdated (some "boom"))).1.state =
      tui.AppState.normal ∧
    tui.AppState.normal ≠ tui.AppState.managePR := by
  decide

/-- C2 (amended): every task-failure message records its error message;
create-worktree, commit, push and create-review failures leave the state
unchanged, while delete-worktree and update-review failures additionally
force the state back to Normal. -/
theorem c2_task_failure_transitions (m : tui.AppModel) (e slug path : String) :
    ((tui.update m (.worktreeCreated slug path (some e))).1.state = m.state ∧
        (tui.update m (.worktreeCreated slug path (some e))).1.inputErr = e) ∧
    ((tui.update m (.commitResult (some e))).1.state = m.state ∧
        (tui.update m (.commitResult (some e))).1.inputErr = e) ∧
    ((tui.update m (.pushResult (some e))).1.state = m.state ∧
        (tui.update m (.pushResult (some e))).1.statusText =
          "✕ push failed: " ++ e) ∧
    ((tui.update m (.prCreated (some e))).1.state = m.state ∧
        (tui.update m (.prCreated (some e))).1.inputErr = e) ∧
    ((tui.update m (.worktreeRemoved (some e))).1.state = tui.AppState.normal ∧
        (tui.update m (.worktreeRemoved (some e))).1.inputErr = e) ∧
    ((tui.update m (.prUpdated (some e))).1.state = tui.AppState.normal ∧
        (tui.update m (.prUpdated (some e))).1.statusText = "✕ " ++ e) := by
  simp [tui.update, tui.setStatus]

/-- C3 (counterexample): the error recorded after a failed push is
scheduled for the timed auto-clear together with the refresh, and the
subsequent clear message erases it — it is removed by the auto-clear
alone, with no user action. -/
theorem c3_push_error_autoclear_counterexample :
    tui.Cmd.clearStatus ∈ (tui.update sampleModel (.pushResult (some "boom"))).2 ∧
    (tui.update sampleModel (.pushResult (some "boom"))).1.statusText =
      "✕ push failed: boom" ∧
    (tui.update (tui.update sampleModel (.pushResult (some "boom"))).1
        .clearStatus).1.statusText = "" := by
  decide

/-- C3 (amended): transient success notices schedule the timed auto-clear,
but so do the push-failure and review-update-failure errors, which land in
the status line; the auto-clear erases whatever text sits in the status
line while never touching the inline input error or the state, so only
inline errors are guaranteed to persist until the user acts. -/
theorem c3_status_clearing (m : tui.AppModel) (e : String) :
    tui.Cmd.clearStatus ∈ (tui.update m (.pushResult none)).2 ∧
    tui.Cmd.clearStatus ∈ (tui.update m (.commitResult none)).2 ∧
    tui.Cmd.clearStatus ∈ (tui.update m (.prCreated none)).2 ∧
    tui.Cmd.clearStatus ∈ (tui.update m (.prUpdated none)).2 ∧
    (tui.Cmd.clearStatus ∈ (tui.update m (.pushResult (some e))).2 ∧
        (tui.update m (.pushResult (some e))).1.statusText =
          "✕ push failed: " ++ e) ∧
    (tui.Cmd.clearStatus ∈ (tui.update m (.prUpdated (some e))).2 ∧
        (tui.update m (.prUpdated (some e))).1.statusText = "✕ " ++ e) ∧
    (tui.update m .clearStatus).1.statusText = "" ∧
    (tui.update m .clearStatus).1.inputErr = m.inputErr ∧
    (tui.update m .clearStatus).1.state = m.state := by
  simp [tui.update, tui.setStatus]

/-- C4 (confirmed): for every branch, both backends turn a failed CLI
invocation or unparseable JSON output into an absent review paired with a
nil error; a fetch failure is never propagated as an error. -/
theorem c4_fetch_failure_degrades_to_absent (branch : String) :
    forge.gitLabFetchPR branch .execError = .ok none ∧
    forge.gitLabFetchPR branch .parseError = .ok none ∧
    forge.gitHubFetchPR branch .execError = .ok none ∧
    forge.gitHubFetchPR branch .parseError = .ok none :=
  ⟨rfl, rfl, rfl, rfl⟩

/-- C5 (confirmed): on a non-empty candidate list each backend attaches
exactly one review — the one built from the first candidate in open state
when such a candidate exists, else from the first candidate of the
returned order. -/
theorem c5_candidate_selection (branch : String) (mrs : List forge.GlabMR)
    (prs : List forge.GhPR) (h1 : mrs ≠ []) (h2 : prs ≠ []) :
    (∀ f, mrs.find? (fun mr => mr.state == "opened") = some f →
        forge.gitLabFetchPR branch (.ok mrs) = .ok (some (forge.glabToPR f))) ∧
    (mrs.find? (fun mr => mr.state == "opened") = none →
        ∀ f0, mrs.head? = some f0 →
          forge.gitLabFetchPR branch (.ok mrs) = .ok (some (forge.glabToPR f0))) ∧
    (∃ f, forge.gitLabFetchPR branch (.ok mrs) = .ok (some (forge.glabToPR f))) ∧
    (∀ f, prs.find? (fun pr => pr.state == "OPEN") = some f →
        forge.gitHubFetchPR branch (.ok prs) = .ok (some (forge.ghToPR f))) ∧
    (prs.find? (fun pr => pr.state == "OPEN") = none →
        ∀ f0, prs.head? = some f0 →
          forge.gitHubFetchPR branch (.ok prs) = .ok (some (forge.ghToPR f0))) ∧
    (∃ f, forge.gitHubFetchPR branch (.ok prs) = .ok (some (forge.ghToPR f))) := by
  refine ⟨?_, ?_, ?_, ?_, ?_, ?_⟩
  · intro f hf
    simp [forge.gitLabFetchPR, forge.selectGlab, hf]
  · intro hf f0 h0
    simp [forge.gitLabFetchPR, forge.selectGlab, hf, h0]
  · cases hf : mrs.find? (fun mr => mr.state == "opened") with
    | some f => exact ⟨f, by simp [forge.gitLabFetchPR, forge.selectGlab, hf]⟩
    | none =>
      cases mrs with
      | nil => exact absurd rfl h1
      | cons a l =>
        exact ⟨a, by simp [forge.gitLabFetchPR, forge.selectGlab, hf]⟩
  · intro f hf
    simp [forge.gitHubFetchPR, forge.selectGh, hf]
  · intro hf f0 h0
    simp [forge.gitHubFetchPR, forge.selectGh, hf, h0]
  · cases hf : prs.find? (fun pr => pr.state == "OPEN") with
    | some f => exact ⟨f, by simp [forge.gitHubFetchPR, forge.selectGh, hf]⟩
    | none =>
      cases prs with
      | nil => exact absurd rfl h2
      | cons a l =>
        exact ⟨a, by simp [forge.gitHubFetchPR, forge.selectGh, hf]⟩

/-- C5 witness: with one merged and one open candidate returned in that
order, the GitLab backend attaches a review, namely the open one. -/
theorem c5_candidate_selection_witness :
    ∃ f, forge.gitLabFetchPR "fix/login-bug" (.ok [sampleMergedMR, sampleOpenMR]) =
      .ok (some (forge.glabToPR f)) :=
  (c5_candidate_selection "fix/login-bug" [sampleMergedMR, sampleOpenMR]
    [sampleGhPR] (by decide) (by decide)).2.2.1

/-- C6 (confirmed): within an enrichment cycle, a session whose existence
probe answers false is published with terminalRunning false and its idle
probe is never invoked. -/
theorem c6_dead_session_short_circuit (sessions : List Session)
    (probeEx probeIdle : String → Bool) (fetchPR : Option (String → Option PR))
    (i : Nat) (s : Session) (hget : sessions[i]? = some s)
    (hex : probeEx s.slug = false) :
    ∃ t, (tui.fetchSessionsCmd sessions probeEx probeIdle fetchPR)[i]? = some t ∧
      t.idleProbed = false ∧ t.published.tmuxRunning = false := by
  refine ⟨tui.enrichSession s false (probeIdle s.slug)
      (fetchPR.map fun f => f s.branch), ?_, ?_, ?_⟩
  · simp only [tui.fetchSessionsCmd, List.getElem?_map, hget, Option.map_some']
    rw [hex]
  · cases hfp : fetchPR.map fun f => f s.branch with
    | none => simp [tui.enrichSession]
    | some pr => cases pr <;> simp [tui.enrichSession]
  · cases hfp : fetchPR.map fun f => f s.branch with
    | none => simp [tui.enrichSession]
    | some pr => cases pr <;> simp [tui.enrichSession]

/-- C6 witness: a one-session cycle whose existence probe answers false. -/
theorem c6_dead_session_short_circuit_witness :
    ∃ t, (tui.fetchSessionsCmd [sampleSession] (fun _ => false) (fun _ => true)
        none)[0]? = some t ∧
      t.idleProbed = false ∧ t.published.tmuxRunning = false :=
  c6_dead_session_short_circuit [sampleSession] (fun _ => false) (fun _ => true)
    none 0 sampleSession rfl rfl

/-- C7 (confirmed): a session whose fetched review has pipelineStatus
"failed" is published with needsInput true, whatever the liveness and
idle probes answered. -/
theorem c7_failed_pipeline_forces_attention (s : Session) (ex idle : Bool)
    (p : PR) (h : p.pipelineStatus = "failed") :
    (tui.enrichSession s ex idle (some (some p))).published.needsInput = true := by
  cases ex <;> simp [tui.enrichSession, h]

/-- C7 witness: a dead, non-idle session with a failed-pipeline review. -/
theorem c7_failed_pipeline_forces_attention_witness :
    (tui.enrichSession sampleSession false false
      (some (some failedPR))).published.needsInput = true :=
  c7_failed_pipeline_forces_attention sampleSession false false failedPR rfl

/-- C8 (confirmed): EnsureSession is idempotent — when the slug is already
registered the call changes nothing and returns success, and after any
successful call a second call with the same slug and path returns success
without changing the world. -/
theorem c8_ensure_idempotent (w : tmux.TmuxWorld) (slug path : String) :
    (tmux.SessionExists w slug = true →
      tmux.EnsureSession w slug path = (w, .ok ())) ∧
    ((tmux.EnsureSession w slug path).2 = .ok () →
      tmux.EnsureSession (tmux.EnsureSession w slug path).1 slug path =
        ((tmux.EnsureSession w slug path).1, .ok ())) := by
  constructor
  · intro h
    simp [tmux.EnsureSession, h]
  · intro h
    by_cases hex : tmux.SessionExists w slug
    · simp [tmux.EnsureSession, hex]
    · by_cases hc : w.createOk
      · have hfst : (tmux.EnsureSession w slug path).1 =
            { registered := slug :: w.registered, createOk := w.createOk } := by
          simp [tmux.EnsureSession, hex, hc]
        rw [hfst]
        have hreg : tmux.SessionExists
            { registered := slug :: w.registered, createOk := w.createOk } slug
              = true := by
          simp [tmux.SessionExists]
        simp [tmux.EnsureSession, hreg]
      · exact absurd h (by simp [tmux.EnsureSession, hex, hc])

/-- C8 witness: ensuring an already-registered session returns success and
leaves the tmux world untouched. -/
theorem c8_ensure_idempotent_witness :
    tmux.EnsureSession ⟨["fix-login-bug"], true⟩ "fix-login-bug" "/p" =
      (⟨["fix-login-bug"], true⟩, .ok ()) :=
  (c8_ensure_idempotent ⟨["fix-login-bug"], true⟩ "fix-login-bug" "/p").1
    (by decide)

/-- C9 (confirmed): with no detected forge backend, every session of an
enrichment cycle is published with an absent review and no backend is ever
invoked, and the manage-review key in the Normal state changes nothing and
dispatches nothing. -/
theorem c9_nil_forge_safe (sessions : List Session)
    (probeEx probeIdle : String → Bool) (m : tui.AppModel)
    (hpr : ∀ s ∈ sessions, s.pr = none) (hstate : m.state = .normal)
    (hforge : m.forgePresent = false) :
    (∀ t ∈ tui.fetchSessionsCmd sessions probeEx probeIdle none,
        t.published.pr = none ∧ t.forgeInvoked = false) ∧
    tui.update m (.key "m") = (m, []) := by
  constructor
  · intro t ht
    simp only [tui.fetchSessionsCmd, List.mem_map, Option.map_none] at ht
    obtain ⟨s, hs, rfl⟩ := ht
    have hnone := hpr s hs
    cases hex : probeEx s.slug <;>
      simp [tui.enrichSession, hnone, hex]
  · show tui.update m (.key "m") = (m, [])
    have : tui.update m (.key "m") = tui.updateNormal m "m" := by
      simp [tui.update, tui.updateKey, hstate]
    rw [this]
    unfold tui.updateNormal
    cases hsel : tui.selectedSession m with
    | none => simp [hsel]
    | some s => simp [hsel, hforge]

/-- C9 witness: one zero-value session, no backend, a forgeless Normal
model. -/
theorem c9_nil_forge_safe_witness :
    (∀ t ∈ tui.fetchSessionsCmd [sampleSession] (fun _ => true) (fun _ => true)
        none, t.published.pr = none ∧ t.forgeInvoked = false) ∧
    tui.update { sampleModel with forgePresent := false } (.key "m") =
      ({ sampleModel with forgePresent := false }, []) :=
  c9_nil_forge_safe [sampleSession] (fun _ => true) (fun _ => true)
    { sampleModel with forgePresent := false }
    (by intro s hs; simp at hs; subst hs; rfl) rfl rfl

/-- C10 (confirmed): BranchToSlug maps the empty branch to the literal
slug "unknown", and every worktree block the parser accepts is published
with a non-empty slug. -/
theorem c10_parsed_slug_nonempty (block : String) (s : Session)
    (h : git.parseBlock block = some s) :
    git.BranchToSlug "" = "unknown" ∧ s.slug ≠ "" := by
  refine ⟨rfl, ?_⟩
  unfold git.parseBlock at h
  by_cases hp : ((git.splitNl block.data).foldl git.parseLine ⟨"", "", false⟩).path = ""
  · simp [hp] at h
  · simp only [hp, if_false] at h
    injection h with h
    subst h
    exact git.branchToSlug_ne_empty _

/-- C10 witness: a block carrying only a worktree line parses to a session
whose slug is the non-empty literal "unknown". -/
theorem c10_parsed_slug_nonempty_witness :
    git.BranchToSlug "" = "unknown" ∧
      (Session.mk "/repo" "" "unknown" false false none).slug ≠ "" :=
  c10_parsed_slug_nonempty "worktree /repo"
    (Session.mk "/repo" "" "unknown" false false none) (by decide)

end Deckard
